import Mathlib

/-!
Verification development for the CLI view of a transpiler timeline debugger
(`src/qiskit_trebugger/views/cli/cli_view.py`).

The embedding below translates, directly from that source file:
  * the mutable view-parameter dictionary `_view_params` (structure `ViewParams`),
  * the key dispatcher `CLIView._handle_keystroke`,
  * the index-commit path of `CLIView._get_statusbar_win` (the branch that runs
    when the status bar is rendered with `status_type == "index"`),
  * the centering helper `CLIView._get_center`,
  * the overview aggregation `CLIView._get_overview_stats` and the pass-count
    strings of `CLIView._build_overview_win`.

Curses calls are pure window drawing and are not modelled; only the state
mutations and the computed data (indices, strings, offsets) are.  Python
integers are modelled by `Int`, Python `//` and `%` by `Int.fdiv` / `Int.fmod`
(floor conventions, identical to Python for every divisor), and Python string
slicing `s[:k]` by `pySliceTo` below.
-/

namespace CliDebugger

/-- Modelled from the spec: the step category.  The data-model module
(`model/pass_type.py`) is not part of the sources at hand; the spec fixes
`category` as one of `TRANSFORMATION`, `ANALYSIS`, and `cli_view.py` compares
`step.pass_type == PassType.TRANSFORMATION`. -/
inductive PassType where
  | TRANSFORMATION
  | ANALYSIS
deriving DecidableEq, Inhabited

/-- Modelled from the spec: the circuit-statistics snapshot of a step record.
`model/circuit_stats.py` is not in the sources at hand; `cli_view.py` reads the
fields `depth`, `size`, `width` (through `__dict__`) and the arity-bucketed
operation counts `ops_1q`, `ops_2q`, `ops_3q`. -/
structure CircuitStats where
  depth : Int
  size : Int
  width : Int
  ops_1q : Int
  ops_2q : Int
  ops_3q : Int
deriving DecidableEq, Inhabited

/-- Modelled from the spec: one step record of the frozen transpilation
sequence (`index` stable and 0-based, a category, a statistics snapshot).  The
execution duration is not read by any modelled operation and is omitted. -/
structure Step where
  index : Nat
  pass_type : PassType
  circuit_stats : CircuitStats
deriving DecidableEq, Inhabited

/-- The five keys of the `_status_strings` dictionary of `CLIView.__init__`:
`"normal"`, `"index"`, `"invalid"`, `"out_of_bounds"`, `"pass"`.  The value
stored under `_view_params["status_type"]` and the key selecting the displayed
status-bar message both range over this type. -/
inductive StatusType where
  | normal
  | index
  | invalid
  | out_of_bounds
  | pass
deriving DecidableEq, Inhabited

/-- The mutable dictionary `_view_params` built in `CLIView._reset_view_params`
(one instance per session). -/
structure ViewParams where
  curr_row : Int
  curr_col : Int
  last_width : Int
  last_height : Int
  pass_id : Int
  transpiler_start_row : Int
  transpiler_start_col : Option Int
  status_type : StatusType
deriving DecidableEq, Inhabited

/-- `CLIView._reset_view_params`: the dictionary literal assigned there. -/
def reset_view_params : ViewParams where
  curr_row := 0
  curr_col := 0
  last_width := 0
  last_height := 0
  pass_id := -1
  transpiler_start_row := 6
  transpiler_start_col := none
  status_type := StatusType.normal

/-- `curses.KEY_UP` (ncurses keycode 0o403). -/
def KEY_UP : Int := 259
/-- `curses.KEY_LEFT` (ncurses keycode 0o404). -/
def KEY_LEFT : Int := 260
/-- `ord("i")`. -/
def ord_i : Int := 105
/-- `ord("I")`. -/
def ord_I : Int := 73
/-- `ord("n")`. -/
def ord_n : Int := 110
/-- `ord("N")`. -/
def ord_N : Int := 78
/-- `ord("p")`. -/
def ord_p : Int := 112
/-- `ord("P")`. -/
def ord_P : Int := 80
/-- `ord("b")`. -/
def ord_b : Int := 98
/-- `ord("B")`. -/
def ord_B : Int := 66

/-- `CLIView._handle_keystroke(key)`, acting on `_view_params`.  The
`KEY_DOWN` / `KEY_RIGHT` branches are commented out in the source, so an
unmatched key falls through the `elif` chain and changes nothing.  The `n` / `p`
branches read `len(self.transpilation_sequence.steps)`, passed here as
`steps`. -/
def handle_keystroke (steps : List Step) (vp : ViewParams) (key : Int) : ViewParams :=
  if key = KEY_UP then
    { vp with curr_row := max (vp.curr_row - 1) 0 }
  else if key = KEY_LEFT then
    { vp with curr_col := max (vp.curr_col - 1) 0 }
  else if key = ord_i ∨ key = ord_I then
    { vp with status_type := StatusType.index }
  else if key = ord_n ∨ key = ord_N then
    if vp.status_type = StatusType.index ∨ vp.status_type = StatusType.pass then
      { vp with
        pass_id := min (vp.pass_id + 1) ((steps.length : Int) - 1)
        status_type := StatusType.pass }
    else vp
  else if key = ord_p ∨ key = ord_P then
    if vp.status_type = StatusType.index ∨ vp.status_type = StatusType.pass then
      { vp with
        pass_id := max 0 (vp.pass_id - 1)
        status_type := StatusType.pass }
    else vp
  else if key = ord_b ∨ key = ord_B then
    { vp with
      status_type := StatusType.normal
      pass_id := -1
      curr_col := 0
      curr_row := 0 }
  else vp

/-- Python `str.strip()` restricted to ASCII whitespace, which is all the
status-bar text box can produce: drop whitespace from both ends. -/
def pyStrip (s : String) : String :=
  String.mk (((s.toList.dropWhile Char.isWhitespace).reverse.dropWhile
    Char.isWhitespace).reverse)

/-- The digit-run grammar of Python `int()`: one or more decimal digits with
PEP 515 grouping, where a single underscore may stand only between two
digits (so `10`, `1_0`, `1_0_2` are accepted and ``, `_1`, `1_`, `1__0` are
rejected). -/
def pyDigitsOk : List Char → Bool
  | [] => false
  | [c] => c.isDigit
  | c :: '_' :: rest => c.isDigit && pyDigitsOk rest
  | c :: rest => c.isDigit && pyDigitsOk rest

/-- Python `int(s)` on an already stripped string, as used by the commit
path: an optional sign followed by a PEP 515 digit run (see `pyDigitsOk`)
yields the value of the digits with the underscores dropped, anything else
raises `ValueError` (modelled by `none`).  Non-ASCII digits and non-ASCII
whitespace are outside the printable-ASCII alphabet the curses text box
inserts and are not modelled. -/
def pyParseInt (s : String) : Option Int :=
  let core (ds : List Char) : Option Nat :=
    if pyDigitsOk ds then
      some ((ds.filter Char.isDigit).foldl (fun acc c => 10 * acc + (c.toNat - 48)) 0)
    else none
  match s.toList with
  | '-' :: rest => (core rest).map (fun n => -(n : Int))
  | '+' :: rest => (core rest).map (fun n => (n : Int))
  | l => (core l).map (fun n => (n : Int))

/-- Result of rendering the status bar in the indexing flow: the view
parameters after the commit and the key of `_status_strings` whose message the
window displays afterwards. -/
structure CommitResult where
  vp : ViewParams
  displayed : StatusType
deriving DecidableEq

/-- The index-commit path of `CLIView._get_statusbar_win` (the body of
`if status_type == "index":`).  `entered` is the text standing after the colon
of the prompt in the gathered text-box content, i.e. what the user typed
(`textbox.gather().split(":")[1]`); the source then strips it and calls
`int(...)` inside `try`.  On success in range it assigns
`self._view_params["pass_id"] = num`; in every branch it only rebinds the
local `status_str`, so `_view_params["status_type"]` is left untouched. -/
def get_statusbar_commit (steps : List Step) (vp : ViewParams) (entered : String) :
    CommitResult :=
  match pyParseInt (pyStrip entered) with
  | some num =>
      if num ≥ (steps.length : Int) ∨ num < 0 then
        { vp := vp, displayed := StatusType.out_of_bounds }
      else
        { vp := { vp with pass_id := num }, displayed := StatusType.pass }
  | none => { vp := vp, displayed := StatusType.invalid }

/-- `CLIView._get_center(width, string_len, divisor=2)`:
`max(0, int(width // divisor - string_len // 2 - string_len % 2))`.
Python floor division and modulo are `Int.fdiv` / `Int.fmod`. -/
def get_center (width string_len divisor : Int) : Int :=
  max 0 (Int.fdiv width divisor - Int.fdiv string_len 2 - Int.fmod string_len 2)

/-- Python string slicing `s[:k]` for an `Int` bound `k`: a non-negative bound
keeps the first `k` characters (clamped to the length), a negative bound stops
`-k` characters before the end (clamped to the start). -/
def pySliceTo (s : String) (k : Int) : String :=
  if 0 ≤ k then String.mk (s.toList.take k.toNat)
  else String.mk (s.toList.take (max 0 ((s.toList.length : Int) + k)).toNat)

/-- The overview-statistics dictionary built by `CLIView._get_overview_stats`:
keys `depth`, `size`, `width`, `ops`, each with an `init` and a `final`
entry. -/
structure OverviewStats where
  depth_init : Int
  depth_final : Int
  size_init : Int
  size_final : Int
  width_init : Int
  width_final : Int
  ops_init : Int
  ops_final : Int
deriving DecidableEq

/-- `CLIView._get_overview_stats`.  The source reads
`self.transpilation_sequence.steps[0]` and `steps[-1]` (which raise on an
empty sequence; the spec makes non-emptiness a precondition, so `headD` /
`getLastD` with an unused default stand in for them), copies `depth`, `size`
and `width` of each endpoint, and sums `ops_1q + ops_2q + ops_3q` per
endpoint into the `ops` row. -/
def get_overview_stats (steps : List Step) : OverviewStats :=
  let init_step := steps.headD default
  let final_step := steps.getLastD default
  { depth_init := init_step.circuit_stats.depth
    depth_final := final_step.circuit_stats.depth
    size_init := init_step.circuit_stats.size
    size_final := final_step.circuit_stats.size
    width_init := init_step.circuit_stats.width
    width_final := final_step.circuit_stats.width
    ops_init := init_step.circuit_stats.ops_1q + init_step.circuit_stats.ops_2q
      + init_step.circuit_stats.ops_3q
    ops_final := final_step.circuit_stats.ops_1q + final_step.circuit_stats.ops_2q
      + final_step.circuit_stats.ops_3q }

/-- The category-count loop of `CLIView._build_overview_win`: one traversal of
the sequence incrementing the `"T"` counter on `PassType.TRANSFORMATION` and
the `"A"` counter otherwise.  Returns the pair `(T, A)`. -/
def total_passes (steps : List Step) : Nat × Nat :=
  steps.foldl
    (fun acc step =>
      if step.pass_type = PassType.TRANSFORMATION then (acc.1 + 1, acc.2)
      else (acc.1, acc.2 + 1))
    (0, 0)

/-- The f-string `f"Total Passes : {total_passes['A'] + total_passes['T']}"`
of `CLIView._build_overview_win`, truncated by `[: overview_cols - 1]`. -/
def total_pass_str (steps : List Step) (overview_cols : Int) : String :=
  pySliceTo
    ("Total Passes : " ++ toString ((total_passes steps).2 + (total_passes steps).1))
    (overview_cols - 1)

/-- The f-string
`f"Transformation : {total_passes['T']} | Analysis : {total_passes['A']}"`
of `CLIView._build_overview_win`, truncated by `[: overview_cols - 1]`. -/
def pass_categories_str (steps : List Step) (overview_cols : Int) : String :=
  pySliceTo
    ("Transformation : " ++ toString (total_passes steps).1
      ++ " | Analysis : " ++ toString (total_passes steps).2)
    (overview_cols - 1)

/-- The view-parameter states a session over a fixed frozen sequence can
reach.  `CLIView.display` calls `_reset_view_params` before its loop; each
loop iteration dispatches a key through `_handle_keystroke`, renders the
status bar (running the index-commit path exactly when the stored
`status_type` is `"index"`), stores the current terminal dimensions into
`last_width` / `last_height`, and `_build_overview_win` (on resize) stores
`transpiler_start_col`. -/
inductive Reachable (steps : List Step) : ViewParams → Prop where
  | init : Reachable steps reset_view_params
  | key (vp : ViewParams) (k : Int) :
      Reachable steps vp → Reachable steps (handle_keystroke steps vp k)
  | commit (vp : ViewParams) (entered : String) :
      Reachable steps vp → vp.status_type = StatusType.index →
      Reachable steps (get_statusbar_commit steps vp entered).vp
  | dims (vp : ViewParams) (w h : Int) :
      Reachable steps vp →
      Reachable steps { vp with last_width := w, last_height := h }
  | start_col (vp : ViewParams) (c : Int) :
      Reachable steps vp →
      Reachable steps { vp with transpiler_start_col := some c }

/-- A fixed statistics snapshot for concrete evaluations. -/
def csA : CircuitStats :=
  { depth := 7, size := 12, width := 5, ops_1q := 4, ops_2q := 6, ops_3q := 2 }

/-- Another fixed statistics snapshot for concrete evaluations. -/
def csB : CircuitStats :=
  { depth := 9, size := 20, width := 5, ops_1q := 11, ops_2q := 8, ops_3q := 1 }

/-- A concrete frozen sequence of three steps. -/
def steps3 : List Step :=
  [ { index := 0, pass_type := PassType.ANALYSIS, circuit_stats := csA }
  , { index := 1, pass_type := PassType.TRANSFORMATION, circuit_stats := csA }
  , { index := 2, pass_type := PassType.ANALYSIS, circuit_stats := csB } ]

/-- A concrete frozen sequence of five steps with three `TRANSFORMATION` and
two `ANALYSIS` records. -/
def steps5 : List Step :=
  [ { index := 0, pass_type := PassType.TRANSFORMATION, circuit_stats := csA }
  , { index := 1, pass_type := PassType.TRANSFORMATION, circuit_stats := csA }
  , { index := 2, pass_type := PassType.ANALYSIS, circuit_stats := csA }
  , { index := 3, pass_type := PassType.TRANSFORMATION, circuit_stats := csB }
  , { index := 4, pass_type := PassType.ANALYSIS, circuit_stats := csB } ]

/-! ## Helper lemmas -/

/-- The invariant that actually holds of every reachable `_view_params` state:
a selected `pass_id` forces the stored `status_type` to be `"index"` or
`"pass"`, and the stored `status_type` is never `"invalid"` or
`"out_of_bounds"` (those two keys only ever select a displayed message). -/
def SessionInv (vp : ViewParams) : Prop :=
  (vp.pass_id ≠ -1 →
    vp.status_type = StatusType.index ∨ vp.status_type = StatusType.pass)
  ∧ vp.status_type ≠ StatusType.invalid
  ∧ vp.status_type ≠ StatusType.out_of_bounds

theorem sessionInv_handle_keystroke (steps : List Step) (vp : ViewParams) (k : Int)
    (h : SessionInv vp) : SessionInv (handle_keystroke steps vp k) := by
  unfold SessionInv at h ⊢
  unfold handle_keystroke
  split_ifs <;> simp_all

theorem sessionInv_commit (steps : List Step) (vp : ViewParams) (entered : String)
    (hst : vp.status_type = StatusType.index) :
    SessionInv ((get_statusbar_commit steps vp entered).vp) := by
  unfold SessionInv get_statusbar_commit
  cases pyParseInt (pyStrip entered) with
  | none => simp_all
  | some v =>
    dsimp only
    split_ifs <;> simp_all

theorem reachable_sessionInv (steps : List Step) (vp : ViewParams)
    (h : Reachable steps vp) : SessionInv vp := by
  induction h with
  | init => unfold SessionInv reset_view_params; simp
  | key vp k _ ih => exact sessionInv_handle_keystroke _ _ _ ih
  | commit vp entered _ hst _ => exact sessionInv_commit _ _ _ hst
  | dims vp w hgt _ ih => unfold SessionInv at ih ⊢; simpa using ih
  | start_col vp c _ ih => unfold SessionInv at ih ⊢; simpa using ih

theorem handle_keystroke_next (steps : List Step) (vp : ViewParams) (key : Int)
    (hk : key = ord_n ∨ key = ord_N)
    (hst : vp.status_type = StatusType.index ∨ vp.status_type = StatusType.pass) :
    handle_keystroke steps vp key =
      { vp with pass_id := min (vp.pass_id + 1) ((steps.length : Int) - 1),
                status_type := StatusType.pass } := by
  rcases hk with rfl | rfl <;> rcases hst with h | h <;>
    simp [handle_keystroke, KEY_UP, KEY_LEFT, ord_i, ord_I, ord_n, ord_N, ord_p, ord_P,
      ord_b, ord_B, h]

theorem handle_keystroke_prev (steps : List Step) (vp : ViewParams) (key : Int)
    (hk : key = ord_p ∨ key = ord_P)
    (hst : vp.status_type = StatusType.index ∨ vp.status_type = StatusType.pass) :
    handle_keystroke steps vp key =
      { vp with pass_id := max 0 (vp.pass_id - 1), status_type := StatusType.pass } := by
  rcases hk with rfl | rfl <;> rcases hst with h | h <;>
    simp [handle_keystroke, KEY_UP, KEY_LEFT, ord_i, ord_I, ord_n, ord_N, ord_p, ord_P,
      ord_b, ord_B, h]

/-! ## Claim theorems -/

/-- C9: for every text length `L` and field width `W` (both non-negative), the
left offset computed by `_get_center` with the default divisor equals
`max(0, W//2 - L//2 - L%2)`; in particular the offset for `W = 80`, `L = 17`
is `31`. -/
theorem get_center_centering_formula (W L : Nat) :
    get_center (W : Int) (L : Int) 2
        = max 0 ((W : Int) / 2 - (L : Int) / 2 - (L : Int) % 2) ∧
    get_center 80 17 2 = 31 := by
  constructor
  · unfold get_center
    rw [Int.fdiv_eq_ediv _ (by omega), Int.fdiv_eq_ediv _ (by omega),
      Int.fmod_eq_emod _ (by omega)]
  · decide

/-- C4: pressing the Back key (`b` or `B`) in any state yields status type
`normal`, `pass_id = -1`, `curr_row = 0` and `curr_col = 0`, regardless of the
view parameters before the key press. -/
theorem back_key_resets_state (steps : List Step) (vp : ViewParams) (key : Int)
    (hk : key = ord_b ∨ key = ord_B) :
    (handle_keystroke steps vp key).status_type = StatusType.normal ∧
    (handle_keystroke steps vp key).pass_id = -1 ∧
    (handle_keystroke steps vp key).curr_row = 0 ∧
    (handle_keystroke steps vp key).curr_col = 0 := by
  rcases hk with rfl | rfl <;>
    simp [handle_keystroke, KEY_UP, KEY_LEFT, ord_i, ord_I, ord_n, ord_N, ord_p, ord_P,
      ord_b, ord_B]

/-- C4 witness: the Back postcondition at a concrete scrambled state. -/
theorem back_key_resets_state_wit :
    (handle_keystroke steps3
        { reset_view_params with
            curr_row := 4, curr_col := 7, pass_id := 2,
            status_type := StatusType.pass } ord_B).status_type
      = StatusType.normal ∧
    (handle_keystroke steps3
        { reset_view_params with
            curr_row := 4, curr_col := 7, pass_id := 2,
            status_type := StatusType.pass } ord_B).pass_id = -1 ∧
    (handle_keystroke steps3
        { reset_view_params with
            curr_row := 4, curr_col := 7, pass_id := 2,
            status_type := StatusType.pass } ord_B).curr_row = 0 ∧
    (handle_keystroke steps3
        { reset_view_params with
            curr_row := 4, curr_col := 7, pass_id := 2,
            status_type := StatusType.pass } ord_B).curr_col = 0 :=
  back_key_resets_state steps3
    { reset_view_params with
        curr_row := 4, curr_col := 7, pass_id := 2, status_type := StatusType.pass }
    ord_B (Or.inr rfl)

/-- C10: from status type `index` with `pass_id = -1` and a non-empty
sequence, the Next keys set `pass_id` to `min(-1 + 1, N - 1) = 0` and the
status type to `pass`; the Previous keys set `pass_id` to `max(0, -2) = 0`
and the status type to `pass`. -/
theorem indexing_next_prev_unselected (steps : List Step) (vp : ViewParams)
    (hne : steps ≠ []) (hst : vp.status_type = StatusType.index)
    (hid : vp.pass_id = -1) :
    (∀ key : Int, key = ord_n ∨ key = ord_N →
      (handle_keystroke steps vp key).pass_id = 0 ∧
      (handle_keystroke steps vp key).status_type = StatusType.pass) ∧
    (∀ key : Int, key = ord_p ∨ key = ord_P →
      (handle_keystroke steps vp key).pass_id = 0 ∧
      (handle_keystroke steps vp key).status_type = StatusType.pass) := by
  have hlen : (1 : Int) ≤ (steps.length : Int) := by
    have := List.length_pos.mpr hne
    omega
  constructor <;> rintro key (rfl | rfl) <;>
    simp [handle_keystroke, KEY_UP, KEY_LEFT, ord_i, ord_I, ord_n, ord_N, ord_p, ord_P,
      ord_b, ord_B, hst, hid] <;> omega

/-- C10 witness: Next and Previous from the freshly entered indexing state of
a three-step session both select step 0. -/
theorem indexing_next_prev_unselected_wit :
    ((handle_keystroke steps3
        { reset_view_params with status_type := StatusType.index } ord_n).pass_id = 0 ∧
      (handle_keystroke steps3
        { reset_view_params with status_type := StatusType.index } ord_n).status_type
        = StatusType.pass) ∧
    ((handle_keystroke steps3
        { reset_view_params with status_type := StatusType.index } ord_p).pass_id = 0 ∧
      (handle_keystroke steps3
        { reset_view_params with status_type := StatusType.index } ord_p).status_type
        = StatusType.pass) := by
  have h := indexing_next_prev_unselected steps3
    { reset_view_params with status_type := StatusType.index }
    (by decide) rfl rfl
  exact ⟨h.1 ord_n (Or.inl rfl), h.2 ord_p (Or.inl rfl)⟩

/-- C6: in status type `pass`, the Next keys set `pass_id` to
`min(pass_id + 1, N - 1)` and the Previous keys to `max(0, pass_id - 1)`,
both keeping status type `pass`; Next at `pass_id = N - 1` and Previous at
`pass_id = 0` leave the whole state unchanged, and when `pass_id` starts in
`[0, N - 1]` it stays in `[0, N - 1]`. -/
theorem detail_next_prev_clamped (steps : List Step) (vp : ViewParams)
    (hst : vp.status_type = StatusType.pass) :
    (∀ key : Int, key = ord_n ∨ key = ord_N →
      (handle_keystroke steps vp key).pass_id
          = min (vp.pass_id + 1) ((steps.length : Int) - 1) ∧
      (handle_keystroke steps vp key).status_type = StatusType.pass ∧
      (vp.pass_id = (steps.length : Int) - 1 → handle_keystroke steps vp key = vp)) ∧
    (∀ key : Int, key = ord_p ∨ key = ord_P →
      (handle_keystroke steps vp key).pass_id = max 0 (vp.pass_id - 1) ∧
      (handle_keystroke steps vp key).status_type = StatusType.pass ∧
      (vp.pass_id = 0 → handle_keystroke steps vp key = vp)) ∧
    (0 ≤ vp.pass_id → vp.pass_id ≤ (steps.length : Int) - 1 →
      ∀ key : Int, (key = ord_n ∨ key = ord_N) ∨ (key = ord_p ∨ key = ord_P) →
        0 ≤ (handle_keystroke steps vp key).pass_id ∧
        (handle_keystroke steps vp key).pass_id ≤ (steps.length : Int) - 1) := by
  refine ⟨?_, ?_, ?_⟩
  · intro key hk
    rw [handle_keystroke_next steps vp key hk (Or.inr hst)]
    refine ⟨rfl, rfl, ?_⟩
    intro hp
    have hm : min (vp.pass_id + 1) ((steps.length : Int) - 1) = vp.pass_id := by omega
    rw [hm, ← hst]
  · intro key hk
    rw [handle_keystroke_prev steps vp key hk (Or.inr hst)]
    refine ⟨rfl, rfl, ?_⟩
    intro hp
    have hm : max 0 (vp.pass_id - 1) = vp.pass_id := by omega
    rw [hm, ← hst]
  · intro h0 h1 key hk
    rcases hk with hk | hk
    · rw [handle_keystroke_next steps vp key hk (Or.inr hst)]
      dsimp only
      omega
    · rw [handle_keystroke_prev steps vp key hk (Or.inr hst)]
      dsimp only
      omega

/-- C6 witness: in a three-step session, Next is the identity at
`pass_id = 2` and Previous is the identity at `pass_id = 0`. -/
theorem detail_next_prev_clamped_wit :
    handle_keystroke steps3
        { reset_view_params with pass_id := 2, status_type := StatusType.pass } ord_n
      = { reset_view_params with pass_id := 2, status_type := StatusType.pass } ∧
    handle_keystroke steps3
        { reset_view_params with pass_id := 0, status_type := StatusType.pass } ord_p
      = { reset_view_params with pass_id := 0, status_type := StatusType.pass } := by
  constructor
  · exact ((detail_next_prev_clamped steps3
      { reset_view_params with pass_id := 2, status_type := StatusType.pass } rfl).1
        ord_n (Or.inl rfl)).2.2 (by decide)
  · exact ((detail_next_prev_clamped steps3
      { reset_view_params with pass_id := 0, status_type := StatusType.pass } rfl).2.1
        ord_p (Or.inl rfl)).2.2 (by decide)

/-- C5 counterexample: the claim says the `i` key is a no-op outside `NORMAL`
and `DETAIL`; on a state whose status type is `invalid` the dispatcher
nevertheless rewrites the status type to `index`, changing the state. -/
theorem index_key_gating_cex :
    handle_keystroke steps3
        { reset_view_params with status_type := StatusType.invalid } ord_i
      ≠ { reset_view_params with status_type := StatusType.invalid } ∧
    (handle_keystroke steps3
        { reset_view_params with status_type := StatusType.invalid } ord_i).status_type
      = StatusType.index := by decide

/-- C5 (amended): the `i` and `I` keys unconditionally set the status type to
`index` (leaving every other field unchanged), from whatever status type;
from `index` this is a full no-op, and the stored status type of a reachable
state is never `invalid` or `out_of_bounds`, so on reachable states the only
deviation from the claimed table is that the key is also accepted from
`index`, where it changes nothing. -/
theorem index_key_unconditional (steps : List Step) (vp : ViewParams) (key : Int)
    (hk : key = ord_i ∨ key = ord_I) :
    handle_keystroke steps vp key = { vp with status_type := StatusType.index } ∧
    (vp.status_type = StatusType.index → handle_keystroke steps vp key = vp) ∧
    (Reachable steps vp →
      vp.status_type ≠ StatusType.invalid ∧ vp.status_type ≠ StatusType.out_of_bounds) := by
  refine ⟨?_, ?_, ?_⟩
  · rcases hk with rfl | rfl <;>
      simp [handle_keystroke, KEY_UP, KEY_LEFT, ord_i, ord_I, ord_n, ord_N, ord_p, ord_P,
        ord_b, ord_B]
  · intro hst
    rcases hk with rfl | rfl <;>
      · simp [handle_keystroke, KEY_UP, KEY_LEFT, ord_i, ord_I, ord_n, ord_N, ord_p,
          ord_P, ord_b, ord_B]
        rw [← hst]
  · intro hr
    exact (reachable_sessionInv steps vp hr).2

/-- C5 witness: the `i` key takes the initial state to the indexing state,
and the initial (reachable) state is not in an error status. -/
theorem index_key_unconditional_wit :
    handle_keystroke steps3 reset_view_params ord_i
      = { reset_view_params with status_type := StatusType.index } ∧
    reset_view_params.status_type ≠ StatusType.invalid := by
  refine ⟨(index_key_unconditional steps3 reset_view_params ord_i (Or.inl rfl)).1, ?_⟩
  exact ((index_key_unconditional steps3 reset_view_params ord_i (Or.inl rfl)).2.2
    Reachable.init).1

/-- C7: the overview statistics take the `init` value of each tracked
statistic from the record at index `0`, the `final` value from the record at
index `N - 1`, and the aggregate operation count at each endpoint is the sum
of the 1-, 2- and 3-qubit buckets of that endpoint. -/
theorem overview_stats_endpoints (steps : List Step) (h : 0 < steps.length) :
    (get_overview_stats steps).depth_init = (steps.get ⟨0, h⟩).circuit_stats.depth ∧
    (get_overview_stats steps).size_init = (steps.get ⟨0, h⟩).circuit_stats.size ∧
    (get_overview_stats steps).width_init = (steps.get ⟨0, h⟩).circuit_stats.width ∧
    (get_overview_stats steps).ops_init
        = (steps.get ⟨0, h⟩).circuit_stats.ops_1q
          + (steps.get ⟨0, h⟩).circuit_stats.ops_2q
          + (steps.get ⟨0, h⟩).circuit_stats.ops_3q ∧
    (get_overview_stats steps).depth_final
        = (steps.get ⟨steps.length - 1, Nat.sub_lt h Nat.one_pos⟩).circuit_stats.depth ∧
    (get_overview_stats steps).size_final
        = (steps.get ⟨steps.length - 1, Nat.sub_lt h Nat.one_pos⟩).circuit_stats.size ∧
    (get_overview_stats steps).width_final
        = (steps.get ⟨steps.length - 1, Nat.sub_lt h Nat.one_pos⟩).circuit_stats.width ∧
    (get_overview_stats steps).ops_final
        = (steps.get ⟨steps.length - 1, Nat.sub_lt h Nat.one_pos⟩).circuit_stats.ops_1q
          + (steps.get ⟨steps.length - 1, Nat.sub_lt h Nat.one_pos⟩).circuit_stats.ops_2q
          + (steps.get ⟨steps.length - 1, Nat.sub_lt h Nat.one_pos⟩).circuit_stats.ops_3q := by
  have hne : steps ≠ [] := List.length_pos.mp h
  have h0 : steps.headD default = steps.get ⟨0, h⟩ := by
    cases steps with
    | nil => simp at h
    | cons a l => rfl
  have hl : steps.getLastD default
      = steps.get ⟨steps.length - 1, Nat.sub_lt h Nat.one_pos⟩ := by
    rw [List.getLastD_eq_getLast?, List.getLast?_eq_getLast steps hne]
    rw [List.getLast_eq_get]
    rfl
  simp only [get_overview_stats]
  rw [h0, hl]
  exact ⟨rfl, rfl, rfl, rfl, rfl, rfl, rfl, rfl⟩

/-- C7 witness: endpoints of the concrete three-step sequence (`depth` 7 → 9,
operation counts 4+6+2 = 12 → 11+8+1 = 20). -/
theorem overview_stats_endpoints_wit :
    (get_overview_stats steps3).depth_init = 7 ∧
    (get_overview_stats steps3).ops_init = 12 ∧
    (get_overview_stats steps3).depth_final = 9 ∧
    (get_overview_stats steps3).ops_final = 20 := by
  have h := overview_stats_endpoints steps3 (by decide)
  exact ⟨h.1.trans (by decide), h.2.2.2.1.trans (by decide),
    h.2.2.2.2.1.trans (by decide), h.2.2.2.2.2.2.2.trans (by decide)⟩

theorem total_passes_countP (steps : List Step) :
    total_passes steps
      = (steps.countP (fun s => s.pass_type == PassType.TRANSFORMATION),
         steps.countP (fun s => s.pass_type == PassType.ANALYSIS)) := by
  have aux : ∀ (l : List Step) (a b : Nat),
      l.foldl
        (fun acc step =>
          if step.pass_type = PassType.TRANSFORMATION then (acc.1 + 1, acc.2)
          else (acc.1, acc.2 + 1)) (a, b)
        = (a + l.countP (fun s => s.pass_type == PassType.TRANSFORMATION),
           b + l.countP (fun s => s.pass_type == PassType.ANALYSIS)) := by
    intro l
    induction l with
    | nil => intro a b; simp
    | cons s t ih =>
      intro a b
      cases hp : s.pass_type <;>
        simp [List.countP_cons, hp, ih, Prod.ext_iff] <;> omega
  unfold total_passes
  rw [aux]
  simp

/-- C8 counterexample: `steps5` is a five-step sequence with category counts
T = 3, A = 2, yet the overview panel does not produce the claimed literals
`Total Passes: 5` and `Transformation: 3 | Analysis: 2`: the f-strings in the
source put a space before each colon. -/
theorem overview_pass_strings_cex :
    steps5.length = 5 ∧
    total_passes steps5 = (3, 2) ∧
    total_pass_str steps5 80 ≠ "Total Passes: 5" ∧
    pass_categories_str steps5 80 ≠ "Transformation: 3 | Analysis: 2" := by decide

/-- C8 (amended): for the five-step sequence with counts T = 3, A = 2, the
overview panel reports the literals `Total Passes : 5` and
`Transformation : 3 | Analysis : 2` (each with a space before the colon), and
the counts come from a single traversal that counts `TRANSFORMATION` records
against every other record. -/
theorem overview_pass_strings_amended :
    total_pass_str steps5 80 = "Total Passes : 5" ∧
    pass_categories_str steps5 80 = "Transformation : 3 | Analysis : 2" ∧
    ∀ steps : List Step,
      total_passes steps
        = (steps.countP (fun s => s.pass_type == PassType.TRANSFORMATION),
           steps.countP (fun s => s.pass_type == PassType.ANALYSIS)) :=
  ⟨by decide, by decide, total_passes_countP⟩

/-- C1 counterexample: the reachable state obtained by pressing `i`, then
`n`, then `i` again in a three-step session has `pass_id = 0` but status type
`index`, not `pass` — the `i` branch of `_handle_keystroke` does not clear
`pass_id`. -/
theorem selected_index_invariant_cex :
    Reachable steps3
      (handle_keystroke steps3
        (handle_keystroke steps3 (handle_keystroke steps3 reset_view_params ord_i) ord_n)
        ord_i) ∧
    (handle_keystroke steps3
        (handle_keystroke steps3 (handle_keystroke steps3 reset_view_params ord_i) ord_n)
        ord_i).pass_id ≠ -1 ∧
    (handle_keystroke steps3
        (handle_keystroke steps3 (handle_keystroke steps3 reset_view_params ord_i) ord_n)
        ord_i).status_type ≠ StatusType.pass := by
  refine ⟨?_, by decide, by decide⟩
  exact Reachable.key _ _ (Reachable.key _ _ (Reachable.key _ _ Reachable.init))

/-- C1 (amended): in every reachable state, `pass_id ≠ -1` forces the stored
status type to be `index` or `pass` (not only `pass` as claimed), and both
mutating operations — key dispatch and the index commit (which runs with
stored status type `index`) — preserve this weaker invariant together with
the absence of `invalid` / `out_of_bounds` as stored status types. -/
theorem selected_index_invariant_amended (steps : List Step) (vp : ViewParams)
    (h : Reachable steps vp) :
    (vp.pass_id ≠ -1 →
      vp.status_type = StatusType.index ∨ vp.status_type = StatusType.pass) ∧
    (∀ k : Int, SessionInv (handle_keystroke steps vp k)) ∧
    (∀ entered : String, vp.status_type = StatusType.index →
      SessionInv ((get_statusbar_commit steps vp entered).vp)) := by
  have hs := reachable_sessionInv steps vp h
  exact ⟨hs.1, fun k => sessionInv_handle_keystroke steps vp k hs,
    fun entered hst => sessionInv_commit steps vp entered hst⟩

/-- C1 witness: the amended invariant evaluated at the reachable state
reached by pressing `i` then `n` (where `pass_id = 0`). -/
theorem selected_index_invariant_wit :
    (handle_keystroke steps3 (handle_keystroke steps3 reset_view_params ord_i) ord_n).status_type
        = StatusType.index ∨
    (handle_keystroke steps3 (handle_keystroke steps3 reset_view_params ord_i) ord_n).status_type
        = StatusType.pass :=
  (selected_index_invariant_amended steps3 _
    (Reachable.key _ _ (Reachable.key _ _ Reachable.init))).1 (by decide)

/-- C2 counterexample: committing the text `1` in a three-step session from
the indexing state does set `pass_id = 1`, but the stored status type stays
`index`: the commit path only rebinds the local message string and never
writes `_view_params["status_type"]`, so the sub-mode does not become
`pass`. -/
theorem commit_sets_detail_cex :
    (get_statusbar_commit steps3
        { reset_view_params with status_type := StatusType.index } "1").vp.pass_id = 1 ∧
    (get_statusbar_commit steps3
        { reset_view_params with status_type := StatusType.index } "1").vp.status_type
      = StatusType.index ∧
    (get_statusbar_commit steps3
        { reset_view_params with status_type := StatusType.index } "1").vp.status_type
      ≠ StatusType.pass := by decide

/-- C2 (amended): for a committed text parsing to `v` with `0 ≤ v ≤ N - 1`,
the commit sets `pass_id` to `v` (so `pass_id` lands in `[0, N - 1]`) and
selects the `pass` status message for display, but leaves the stored status
type unchanged (it stays `index`) rather than switching the sub-mode to
`pass`. -/
theorem commit_success_sets_pass_id (steps : List Step) (vp : ViewParams)
    (entered : String) (v : Int)
    (hv : pyParseInt (pyStrip entered) = some v)
    (h0 : 0 ≤ v) (hN : v < (steps.length : Int)) :
    (get_statusbar_commit steps vp entered).vp.pass_id = v ∧
    (get_statusbar_commit steps vp entered).displayed = StatusType.pass ∧
    (get_statusbar_commit steps vp entered).vp.status_type = vp.status_type ∧
    0 ≤ (get_statusbar_commit steps vp entered).vp.pass_id ∧
    (get_statusbar_commit steps vp entered).vp.pass_id ≤ (steps.length : Int) - 1 := by
  unfold get_statusbar_commit
  rw [hv]
  dsimp only
  rw [if_neg (by omega)]
  exact ⟨rfl, rfl, rfl, by dsimp only; omega, by dsimp only; omega⟩

/-- C2 witness: committing `1`, and the underscore-grouped numeral `0_2`
(which Python parses as 2), in a three-step session. -/
theorem commit_success_sets_pass_id_wit :
    ((get_statusbar_commit steps3
        { reset_view_params with status_type := StatusType.index } "1").vp.pass_id = 1 ∧
      (get_statusbar_commit steps3
        { reset_view_params with status_type := StatusType.index } "1").displayed
        = StatusType.pass ∧
      (get_statusbar_commit steps3
        { reset_view_params with status_type := StatusType.index } "1").vp.status_type
        = ({ reset_view_params with status_type := StatusType.index } : ViewParams).status_type ∧
      0 ≤ (get_statusbar_commit steps3
        { reset_view_params with status_type := StatusType.index } "1").vp.pass_id ∧
      (get_statusbar_commit steps3
        { reset_view_params with status_type := StatusType.index } "1").vp.pass_id
        ≤ (steps3.length : Int) - 1) ∧
    ((get_statusbar_commit steps3
        { reset_view_params with status_type := StatusType.index } "0_2").vp.pass_id = 2 ∧
      (get_statusbar_commit steps3
        { reset_view_params with status_type := StatusType.index } "0_2").displayed
        = StatusType.pass) := by
  refine ⟨commit_success_sets_pass_id steps3
    { reset_view_params with status_type := StatusType.index } "1" 1
    (by decide) (by decide) (by decide), ?_, ?_⟩
  · exact (commit_success_sets_pass_id steps3
      { reset_view_params with status_type := StatusType.index } "0_2" 2
      (by decide) (by decide) (by decide)).1
  · exact (commit_success_sets_pass_id steps3
      { reset_view_params with status_type := StatusType.index } "0_2" 2
      (by decide) (by decide) (by decide)).2.1

/-- C3 counterexample: after committing the unparsable text `abc` the stored
status type is still `index`, not `invalid`, and after committing the
out-of-range text `7` it is still `index`, not `out_of_bounds`: only the
displayed message changes. -/
theorem commit_error_submode_cex :
    (get_statusbar_commit steps3
        { reset_view_params with status_type := StatusType.index } "abc").displayed
      = StatusType.invalid ∧
    (get_statusbar_commit steps3
        { reset_view_params with status_type := StatusType.index } "abc").vp.status_type
      ≠ StatusType.invalid ∧
    (get_statusbar_commit steps3
        { reset_view_params with status_type := StatusType.index } "7").displayed
      = StatusType.out_of_bounds ∧
    (get_statusbar_commit steps3
        { reset_view_params with status_type := StatusType.index } "7").vp.status_type
      ≠ StatusType.out_of_bounds := by decide

/-- C3 (amended): a committed text whose stripped form fails integer parsing
(the empty string included) selects the `invalid` message and leaves the view
parameters entirely unchanged; a parse success whose value is negative or at
least `N` selects the `out_of_bounds` message and leaves the view parameters
entirely unchanged; the function is total, so no input raises.  In both error
cases the stored sub-mode keeps its previous value instead of becoming
`INVALID` / `OUT_OF_BOUNDS`. -/
theorem commit_rejects_without_mutation (steps : List Step) (vp : ViewParams)
    (entered : String) :
    (pyParseInt (pyStrip entered) = none →
      (get_statusbar_commit steps vp entered).displayed = StatusType.invalid ∧
      (get_statusbar_commit steps vp entered).vp = vp) ∧
    (∀ v : Int, pyParseInt (pyStrip entered) = some v →
      v < 0 ∨ (steps.length : Int) ≤ v →
      (get_statusbar_commit steps vp entered).displayed = StatusType.out_of_bounds ∧
      (get_statusbar_commit steps vp entered).vp = vp) := by
  unfold get_statusbar_commit
  constructor
  · intro hp
    rw [hp]
    exact ⟨rfl, rfl⟩
  · intro v hv hout
    rw [hv]
    dsimp only
    rw [if_pos (by omega)]
    exact ⟨rfl, rfl⟩

/-- C3 witness: the empty string, `abc`, the malformed underscore grouping
`1__0` (a genuine `int()` failure), a whitespace-padded out-of-range number,
the underscore-grouped out-of-range numeral `1_0` (Python parses it as 10),
a negative number and the value `N` itself, in a five-step session. -/
theorem commit_rejects_without_mutation_wit :
    (get_statusbar_commit steps5
        { reset_view_params with status_type := StatusType.index } "abc").displayed
      = StatusType.invalid ∧
    (get_statusbar_commit steps5
        { reset_view_params with status_type := StatusType.index } "").displayed
      = StatusType.invalid ∧
    (get_statusbar_commit steps5
        { reset_view_params with status_type := StatusType.index } "1__0").displayed
      = StatusType.invalid ∧
    (get_statusbar_commit steps5
        { reset_view_params with status_type := StatusType.index } " 7 ").displayed
      = StatusType.out_of_bounds ∧
    (get_statusbar_commit steps5
        { reset_view_params with status_type := StatusType.index } "1_0").displayed
      = StatusType.out_of_bounds ∧
    (get_statusbar_commit steps5
        { reset_view_params with status_type := StatusType.index } "-1").displayed
      = StatusType.out_of_bounds ∧
    (get_statusbar_commit steps5
        { reset_view_params with status_type := StatusType.index } "5").displayed
      = StatusType.out_of_bounds ∧
    (get_statusbar_commit steps5
        { reset_view_params with status_type := StatusType.index } " 7 ").vp
      = { reset_view_params with status_type := StatusType.index } := by
  refine ⟨?_, ?_, ?_, ?_, ?_, ?_, ?_, ?_⟩
  · exact ((commit_rejects_without_mutation steps5
      { reset_view_params with status_type := StatusType.index } "abc").1 (by decide)).1
  · exact ((commit_rejects_without_mutation steps5
      { reset_view_params with status_type := StatusType.index } "").1 (by decide)).1
  · exact ((commit_rejects_without_mutation steps5
      { reset_view_params with status_type := StatusType.index } "1__0").1 (by decide)).1
  · exact ((commit_rejects_without_mutation steps5
      { reset_view_params with status_type := StatusType.index } " 7 ").2 7
        (by decide) (by decide)).1
  · exact ((commit_rejects_without_mutation steps5
      { reset_view_params with status_type := StatusType.index } "1_0").2 10
        (by decide) (by decide)).1
  · exact ((commit_rejects_without_mutation steps5
      { reset_view_params with status_type := StatusType.index } "-1").2 (-1)
        (by decide) (by decide)).1
  · exact ((commit_rejects_without_mutation steps5
      { reset_view_params with status_type := StatusType.index } "5").2 5
        (by decide) (by decide)).1
  · exact ((commit_rejects_without_mutation steps5
      { reset_view_params with status_type := StatusType.index } " 7 ").2 7
        (by decide) (by decide)).2

end CliDebugger
